import Mathlib

/-!
# Verification of the worship-aid booklet core

Shallow embedding of the capacity/overflow detector (`src/validator.js`,
functions `estimateLines` and `detectOverflows`), the liturgical season
auto-rules engine (`src/config/seasons.js`), the music consolidation logic
(`src/music-formatter.js`, function `formatMusicSlot`), and the
conditional-section decisions of the two layout engines
(`src/template-renderer.js` / `src/pdf-generator.js`).

JavaScript values are modelled as follows: a possibly-absent field is an
`Option`; JS string falsiness (`!x` true for `undefined`, `null`, `""`)
is `strFalsy`; JS `x === undefined` on an optional boolean field is
`Option.isNone`.  JS strings are Lean `String`s (all the texts involved
are plain ASCII, so `length` agrees with JS UTF-16 length on the inputs
considered).  Record mutation through aliasing is made explicit where a
claim depends on it.
-/

set_option maxRecDepth 100000

namespace WorshipAid

/-- JS falsiness of a possibly-absent string field: `!x` is true exactly
for `undefined`/`null` (here `none`) and the empty string. -/
def strFalsy : Option String → Bool
  | none => true
  | some s => s = ""

/-- Split a character list at every newline, JS `String.prototype.split('\n')`
semantics: `"".split` gives `[""]`, a trailing newline yields a final empty
segment. -/
def splitNl : List Char → List (List Char)
  | [] => [[]]
  | c :: cs =>
    if c = '\n' then [] :: splitNl cs
    else
      match splitNl cs with
      | [] => [[c]]
      | l :: ls => (c :: l) :: ls

/-- JS `Math.ceil(a / b)` for natural `a` and positive natural `b`. -/
def jsCeilDiv (a b : Nat) : Nat := (a + b - 1) / b

/-- JS `Array.prototype.join(sep)` semantics. -/
def joinSep (sep : String) : List String → String
  | [] => ""
  | [s] => s
  | s :: rest => s ++ sep ++ joinSep sep rest

/-- The apostrophe character, used inside message literals. -/
def apos : String := String.singleton (Char.ofNat 39)

/-! ## Data model

The record fields below are exactly the fields of the weekly-record JSON
object that the verified components read or write; the JS functions copy
every other field through unchanged (`{...data}`), so restricting the
model to these fields loses nothing for the claims at hand. -/

/-- The nested `seasonalSettings` object of a weekly record (shape used by
the editing UI in `server.js` `buildData`, and read by `validator.js` and
both layout engines). -/
structure SeasonalSettings where
  gloria : Option Bool
  creedType : Option String
  entranceType : Option String
  holyHolySetting : Option String
  mysteryOfFaithSetting : Option String
  lambOfGodSetting : Option String
  penitentialAct : Option String
  includePostlude : Option Bool
  adventWreath : Option Bool
  lentenAcclamation : Option String
deriving DecidableEq, Repr

/-- The `seasonalSettings` object with no fields set (the `{}` that
`applySeasonDefaults` creates when the record has none). -/
def emptySS : SeasonalSettings :=
  ⟨none, none, none, none, none, none, none, none, none, none⟩

/-- The nested `readings` object, restricted to the fields `detectOverflows`
reads. -/
structure Readings where
  firstReadingText : Option String
  psalmRefrain : Option String
  psalmVerses : Option String
  noSecondReading : Option Bool
  secondReadingText : Option String
  gospelText : Option String
deriving DecidableEq, Repr

/-- The `readings` object with no fields set (the `{}` fallback in
`detectOverflows`). -/
def emptyReadings : Readings := ⟨none, none, none, none, none, none⟩

/-- One per-service music block (`musicSat5pm` / `musicSun9am` /
`musicSun11am`).  `formatMusicSlot` accesses its fields by dynamic name, so
the block is modelled as a string-keyed dictionary. -/
structure MusicBlock where
  fields : List (String × String)
deriving DecidableEq, Repr

/-- The weekly record, restricted to the fields that the verified
components read or write. -/
structure WeeklyRecord where
  liturgicalSeason : Option String
  gloria : Option Bool
  creedType : Option String
  entranceType : Option String
  seasonalSettings : Option SeasonalSettings
  readings : Option Readings
  musicSat5pm : Option MusicBlock
  musicSun9am : Option MusicBlock
  musicSun11am : Option MusicBlock
  childrenLiturgyEnabled : Option Bool
deriving DecidableEq, Repr

/-! ## `src/config/seasons.js` -/

/-- One season's defaults bundle, a row of `SEASON_RULES`.
`childrenLiturgyMassTime` is only present on the `lent` row, hence
optional. -/
structure SeasonDefaults where
  gloria : Bool
  creedType : String
  entranceType : String
  holyHolySetting : String
  mysteryOfFaithSetting : String
  lambOfGodSetting : String
  penitentialAct : String
  childrenLiturgyDefault : String
  childrenLiturgyMassTime : Option String
  gospelAcclamationType : String
  includePostlude : Bool
  adventWreath : Bool
deriving DecidableEq, Repr

/-- The `ordinary` row of `SEASON_RULES`. -/
def ordinaryRules : SeasonDefaults :=
  { gloria := true
    creedType := "nicene"
    entranceType := "processional"
    holyHolySetting := "Mass of St. Theresa"
    mysteryOfFaithSetting := "Mass of St. Theresa"
    lambOfGodSetting := "Mass of St. Theresa"
    penitentialAct := "confiteor"
    childrenLiturgyDefault := "optional"
    childrenLiturgyMassTime := none
    gospelAcclamationType := "alleluia"
    includePostlude := true
    adventWreath := false }

/-- The `advent` row of `SEASON_RULES`. -/
def adventRules : SeasonDefaults :=
  { gloria := false
    creedType := "apostles"
    entranceType := "antiphon"
    holyHolySetting := "Mass of St. Theresa"
    mysteryOfFaithSetting := "Mass of St. Theresa"
    lambOfGodSetting := "Mass of St. Theresa"
    penitentialAct := "confiteor"
    childrenLiturgyDefault := "no"
    childrenLiturgyMassTime := none
    gospelAcclamationType := "alleluia"
    includePostlude := true
    adventWreath := true }

/-- The `christmas` row of `SEASON_RULES`. -/
def christmasRules : SeasonDefaults :=
  { gloria := true
    creedType := "nicene"
    entranceType := "processional"
    holyHolySetting := "Mass of St. Theresa"
    mysteryOfFaithSetting := "Mass of St. Theresa"
    lambOfGodSetting := "Mass of St. Theresa"
    penitentialAct := "confiteor"
    childrenLiturgyDefault := "no"
    childrenLiturgyMassTime := none
    gospelAcclamationType := "alleluia"
    includePostlude := true
    adventWreath := false }

/-- The `lent` row of `SEASON_RULES`. -/
def lentRules : SeasonDefaults :=
  { gloria := false
    creedType := "apostles"
    entranceType := "antiphon"
    holyHolySetting := "Vatican Edition XVIII"
    mysteryOfFaithSetting := "Vatican Edition XVIII"
    lambOfGodSetting := "Agnus Dei, Vatican Edition XVIII"
    penitentialAct := "confiteor"
    childrenLiturgyDefault := "yes"
    childrenLiturgyMassTime := some "Sun 9:00 AM"
    gospelAcclamationType := "lenten"
    includePostlude := false
    adventWreath := false }

/-- The `easter` row of `SEASON_RULES`. -/
def easterRules : SeasonDefaults :=
  { gloria := true
    creedType := "apostles"
    entranceType := "processional"
    holyHolySetting := "Mass of St. Theresa"
    mysteryOfFaithSetting := "Mass of St. Theresa"
    lambOfGodSetting := "Mass of St. Theresa"
    penitentialAct := "confiteor"
    childrenLiturgyDefault := "optional"
    childrenLiturgyMassTime := none
    gospelAcclamationType := "alleluia"
    includePostlude := true
    adventWreath := false }

/-- The `SEASONS` constant. -/
def SEASONS : List String := ["ordinary", "advent", "christmas", "lent", "easter"]

/-- The `SEASON_RULES` object as a key/value table. -/
def SEASON_RULES : List (String × SeasonDefaults) :=
  [("ordinary", ordinaryRules), ("advent", adventRules),
   ("christmas", christmasRules), ("lent", lentRules), ("easter", easterRules)]

/-- Lookup `getSeasonDefaults(season)`: `SEASON_RULES[season] || SEASON_RULES.ordinary`,
restricted to *own* keys of the `SEASON_RULES` object — this is the defaults
bundle the season resolver merges for every tag that is not the name of a
member inherited from `Object.prototype`.  The full JS property-access
semantics, including the prototype chain (under which a tag such as
`"constructor"` yields the truthy inherited member instead of a bundle), is
`getSeasonDefaultsJs` below; `getSeasonDefaultsJs_agrees` shows the two
coincide away from the inherited member names. -/
def getSeasonDefaults (season : String) : SeasonDefaults :=
  (SEASON_RULES.lookup season).getD ordinaryRules

/-- The property names every plain JS object inherits from
`Object.prototype`; `SEASON_RULES[name]` resolves to a truthy function or
object for each of them. -/
def OBJECT_PROTOTYPE_MEMBERS : List String :=
  ["constructor", "hasOwnProperty", "isPrototypeOf", "propertyIsEnumerable",
   "toLocaleString", "toString", "valueOf", "__defineGetter__", "__defineSetter__",
   "__lookupGetter__", "__lookupSetter__", "__proto__"]

/-- The JS value `getSeasonDefaults(season)` evaluates to: either one of the
`SEASON_RULES` rows (an own row, or the `ordinary` fallback), or a member
inherited from `Object.prototype` (a function or object, not a defaults
bundle). -/
inductive JsLookupResult where
  | bundle (d : SeasonDefaults)
  | inherited (name : String)
deriving DecidableEq, Repr

/-- The property access `SEASON_RULES[season]` with full JS semantics:
an own key yields its row; otherwise the prototype chain is consulted, so a
tag naming an `Object.prototype` member yields that inherited member;
anything else is `undefined` (`none`). -/
def seasonRulesAccess (season : String) : Option JsLookupResult :=
  match SEASON_RULES.lookup season with
  | some d => some (JsLookupResult.bundle d)
  | none =>
    if season ∈ OBJECT_PROTOTYPE_MEMBERS then some (JsLookupResult.inherited season)
    else none

/-- The value `getSeasonDefaults(season)` returns under full JS semantics:
`SEASON_RULES[season] || SEASON_RULES.ordinary` — every present property
value (own row or inherited member) is truthy, so the `||` fallback fires
only for `undefined`. -/
def getSeasonDefaultsJs (season : String) : JsLookupResult :=
  (seasonRulesAccess season).getD (JsLookupResult.bundle ordinaryRules)

/-- Away from the inherited `Object.prototype` member names, the full JS
lookup returns exactly the bundle of the own-key model `getSeasonDefaults`. -/
lemma getSeasonDefaultsJs_agrees (s : String) (h : s ∉ OBJECT_PROTOTYPE_MEMBERS) :
    getSeasonDefaultsJs s = JsLookupResult.bundle (getSeasonDefaults s) := by
  unfold getSeasonDefaultsJs seasonRulesAccess getSeasonDefaults
  rcases hl : SEASON_RULES.lookup s with _ | d
  · simp [hl, h]
  · simp [hl]

/-- The updates `applySeasonDefaults` performs on the nested
`seasonalSettings` object (gap-filling: string fields are filled when
falsy, boolean fields when `undefined`). -/
def resolveSS (ss : SeasonalSettings) (defaults : SeasonDefaults) : SeasonalSettings :=
  { ss with
    holyHolySetting :=
      if strFalsy ss.holyHolySetting then some defaults.holyHolySetting else ss.holyHolySetting
    mysteryOfFaithSetting :=
      if strFalsy ss.mysteryOfFaithSetting then some defaults.mysteryOfFaithSetting
      else ss.mysteryOfFaithSetting
    lambOfGodSetting :=
      if strFalsy ss.lambOfGodSetting then some defaults.lambOfGodSetting else ss.lambOfGodSetting
    penitentialAct :=
      if strFalsy ss.penitentialAct then some defaults.penitentialAct else ss.penitentialAct
    includePostlude :=
      if ss.includePostlude.isNone then some defaults.includePostlude else ss.includePostlude
    adventWreath :=
      if ss.adventWreath.isNone then some defaults.adventWreath else ss.adventWreath }

/-- The merged record `applySeasonDefaults` builds for a given defaults
bundle: fills top-level `gloria` (when `undefined`), `creedType` and
`entranceType` (when falsy), and gap-fills the nested `seasonalSettings`
(created as `{}` when absent). -/
def applyCore (data : WeeklyRecord) (defaults : SeasonDefaults) : WeeklyRecord :=
  { data with
    gloria := if data.gloria.isNone then some defaults.gloria else data.gloria
    creedType := if strFalsy data.creedType then some defaults.creedType else data.creedType
    entranceType :=
      if strFalsy data.entranceType then some defaults.entranceType else data.entranceType
    seasonalSettings := some (resolveSS (data.seasonalSettings.getD emptySS) defaults) }

/-- Value returned by `applySeasonDefaults(data)`.  Mirrors
`seasons.js`: returns the input unchanged when `liturgicalSeason` is falsy;
otherwise merges the season's defaults into the gaps. -/
def applySeasonDefaults (data : WeeklyRecord) : WeeklyRecord :=
  if strFalsy data.liturgicalSeason then data
  else applyCore data (getSeasonDefaults (data.liturgicalSeason.getD ""))

/-- State of the *input* record after `applySeasonDefaults(data)` returns.
The JS function shallow-copies (`const merged = {...data}`), so
`merged.seasonalSettings` aliases `data.seasonalSettings` whenever the
input already has a `seasonalSettings` object; the subsequent
`merged.seasonalSettings.x = ...` assignments then mutate the caller's
nested object in place.  Top-level fields of the input are untouched. -/
def applySeasonDefaultsInputAfter (data : WeeklyRecord) : WeeklyRecord :=
  if strFalsy data.liturgicalSeason then data
  else
    match data.seasonalSettings with
    | none => data
    | some ss =>
      { data with
        seasonalSettings :=
          some (resolveSS ss (getSeasonDefaults (data.liturgicalSeason.getD ""))) }

/-! ## `src/validator.js` -/

/-- Function `estimateLines(text, charsPerLine)` with explicit `charsPerLine`
(the JS parameter defaults to 65): 0 for falsy text, otherwise the
`split('\n').reduce(...)` accumulation of `Math.max(1, Math.ceil(length / charsPerLine))`
over the segments. -/
def estimateLinesWith : Option String → Nat → Nat
  | none, _ => 0
  | some s, charsPerLine =>
    if s = "" then 0
    else (splitNl s.data).foldl (fun total line => total + max 1 (jsCeilDiv line.length charsPerLine)) 0

/-- Function `estimateLines(text)` at the default `charsPerLine = 65` (every call in
the repository uses the default). -/
def estimateLines (text : Option String) : Nat := estimateLinesWith text 65

/-- One entry of the per-page block lists built inside `detectOverflows`. -/
structure Block where
  name : String
  lines : Nat
deriving DecidableEq, Repr

/-- One overflow finding (`warnings` entry) of `detectOverflows`. -/
structure OverflowWarning where
  page : Nat
  severity : String
  message : String
deriving DecidableEq, Repr

/-- A row of the `PAGE_CAPACITIES` table. -/
structure PageCapacity where
  maxLines : Nat
  name : String
deriving DecidableEq, Repr

/-- The `PAGE_CAPACITIES` table from `validator.js`. -/
def PAGE_CAPACITIES : List (Nat × PageCapacity) :=
  [(3, ⟨85, "Liturgy of the Word"⟩), (4, ⟨75, "Gospel & Creed"⟩)]

/-- JS `blocks.reduce((a, b) => b.lines > a.lines ? b : a)` — no initial value,
so the first element seeds the accumulator (JS throws on an empty array;
`detectOverflows` only applies this to its fixed non-empty block lists, so
the `[]` case is unreachable there). -/
def reduceBiggest : List Block → Block
  | [] => ⟨"", 0⟩
  | b :: bs => bs.foldl (fun a c => if c.lines > a.lines then c else a) b

/-- The page-3 overflow message template of `detectOverflows`. -/
def page3Message (biggestName : String) (biggestLines over : Nat) : String :=
  "Page 3 overflow: " ++ biggestName ++ " is the largest block (" ++ toString biggestLines ++
    " lines). Total is approximately " ++ toString over ++
    " lines over capacity. Consider shortening or using a shorter form of the reading."

/-- The page-4 overflow message template of `detectOverflows`. -/
def page4Message (biggestName : String) (over : Nat) : String :=
  "Page 4 overflow: " ++ biggestName ++ " is approximately " ++ toString over ++
    " lines over capacity. Consider shortening the Gospel text or switching to Apostles" ++
    apos ++ " Creed."

/-- The page-3 block list of `detectOverflows` for a readings object. -/
def page3Blocks (r : Readings) : List Block :=
  [⟨"First Reading", estimateLines r.firstReadingText⟩,
   ⟨"Responsorial Psalm", estimateLines r.psalmVerses + estimateLines r.psalmRefrain⟩,
   ⟨"Second Reading",
     if r.noSecondReading.getD false then 0 else estimateLines r.secondReadingText⟩,
   ⟨"Gospel Acclamation", 3⟩]

/-- The fixed creed line count of `detectOverflows`:
`data.seasonalSettings?.creedType === 'apostles' ? 18 : 32`. -/
def creedLinesOf (data : WeeklyRecord) : Nat :=
  if (data.seasonalSettings.bind SeasonalSettings.creedType) = some "apostles" then 18 else 32

/-- The page-4 block list of `detectOverflows`. -/
def page4Blocks (data : WeeklyRecord) (r : Readings) : List Block :=
  [⟨"Gospel", estimateLines r.gospelText⟩, ⟨"Creed", creedLinesOf data⟩]

/-- Function `detectOverflows(data)` from `validator.js`: the page-3 and page-4
capacity checks, each pushing at most one warning. -/
def detectOverflows (data : WeeklyRecord) : List OverflowWarning :=
  let r := data.readings.getD emptyReadings
  let p3 := page3Blocks r
  let page3Total := (p3.map Block.lines).sum
  let w3 : List OverflowWarning :=
    if page3Total > 85 then
      let over := page3Total - 85
      let biggest := reduceBiggest p3
      [⟨3, "error", page3Message biggest.name biggest.lines over⟩]
    else []
  let p4 := page4Blocks data r
  let page4Total := (p4.map Block.lines).sum
  let w4 : List OverflowWarning :=
    if page4Total > 75 then
      let over := page4Total - 75
      let biggest := reduceBiggest p4
      [⟨4, "error", page4Message biggest.name over⟩]
    else []
  w3 ++ w4

/-! ## `src/music-formatter.js` -/

/-- The `MASS_TIMES` constant. -/
def MASS_TIMES : List String := ["Sat 5:00 PM", "Sun 9:00 AM", "Sun 11:00 AM"]

/-- JS `(data[key] && data[key][field]) || ''`: empty string when the block or
the field is absent. -/
def blockField (b : Option MusicBlock) (field : String) : String :=
  match b with
  | none => ""
  | some blk => (blk.fields.lookup field).getD ""

/-- The three music blocks of a record, in the fixed `MASS_TIME_KEYS`
order (`musicSat5pm`, `musicSun9am`, `musicSun11am`). -/
def musicBlocksOf (data : WeeklyRecord) : List (Option MusicBlock) :=
  [data.musicSat5pm, data.musicSun9am, data.musicSun11am]

/-- A surviving `{time, title, composer}` entry inside `formatMusicSlot`. -/
structure MusicEntry where
  time : String
  title : String
  composer : String
deriving DecidableEq, Repr

/-- A `Map` value inside `formatMusicSlot`'s grouping loop. -/
structure MusicGroup where
  title : String
  composer : String
  times : List String
deriving DecidableEq, Repr

/-- One output entry of `formatMusicSlot`. -/
structure DisplayEntry where
  title : String
  composer : String
  timeLabel : String
deriving DecidableEq, Repr

/-- One step of `formatMusicSlot`'s grouping loop over a JS `Map` keyed by
`` `${title}|||${composer}` ``; the map preserves insertion order, modelled
as an ordered association list. -/
def insertGrouped (gs : List (String × MusicGroup)) (e : MusicEntry) :
    List (String × MusicGroup) :=
  if gs.any (fun p => p.1 = e.title ++ "|||" ++ e.composer) then
    gs.map (fun p =>
      if p.1 = e.title ++ "|||" ++ e.composer then
        (p.1, { p.2 with times := p.2.times ++ [e.time] })
      else p)
  else gs ++ [(e.title ++ "|||" ++ e.composer, ⟨e.title, e.composer, [e.time]⟩)]

/-- The regex replacement `t.replace(/(\w+)\s(\d+):00\s(AM|PM)/, '$1, $2 $3')`
evaluated on the strings it is actually applied to: every `times` entry is
drawn from the fixed `MASS_TIMES` constants, so the replacement's effect is
fully described by its value on those three strings. -/
def shortenTime (t : String) : String :=
  if t = "Sat 5:00 PM" then "Sat, 5 PM"
  else if t = "Sun 9:00 AM" then "Sun, 9 AM"
  else if t = "Sun 11:00 AM" then "Sun, 11 AM"
  else t

/-- Function `formatTimeLabel(times)`. -/
def formatTimeLabel (times : List String) : String :=
  joinSep " & " (times.map shortenTime)

/-- The surviving (non-empty-title) entries of a slot, in chronological
`MASS_TIMES` order. -/
def slotEntries (data : WeeklyRecord) (titleField composerField : String) : List MusicEntry :=
  ((MASS_TIMES.zip (musicBlocksOf data)).map
    (fun p => MusicEntry.mk p.1 (blockField p.2 titleField) (blockField p.2 composerField))).filter
    (fun e => e.title ≠ "")

/-- The `groupList` of `formatMusicSlot`: the values of the insertion-order
`Map` built over the surviving entries. -/
def groupListStr (entries : List MusicEntry) : List MusicGroup :=
  (entries.foldl insertGrouped []).map Prod.snd

/-- Function `formatMusicSlot(data, titleField, composerField)` from
`music-formatter.js`: an empty survivor list yields `[]`; a single group
yields one entry with no time qualifier; several groups each carry their
formatted time label. -/
def formatMusicSlot (data : WeeklyRecord) (titleField composerField : String) :
    List DisplayEntry :=
  if slotEntries data titleField composerField = [] then []
  else
    match groupListStr (slotEntries data titleField composerField) with
    | [g] => [⟨g.title, g.composer, ""⟩]
    | gs => gs.map (fun g => ⟨g.title, g.composer, formatTimeLabel g.times⟩)

/-! ## Conditional-section decisions of the two layout engines

`template-renderer.js` (`renderBookletHtml`) and `pdf-generator.js`
(constructor plus the page renderers) each compute, after applying
`applySeasonDefaults` to the input record, the same seven
conditional-inclusion decisions.  Each engine's decisions are transcribed
separately below from its own file.

The gospel-acclamation choice is which of the three fixed text constants
from `assets/text/mass-texts.js` the engine renders; that assets file is
not part of the verified sources, so the choice is modelled as a token
naming the selected constant. -/

/-- Which fixed gospel-acclamation constant an engine selects. -/
inductive AcclamationChoice where
  | standard
  | lenten
  | lentenAlt
deriving DecidableEq, Repr

/-- The conditional-section outcome of one layout engine on one record. -/
structure SectionFlags where
  showGloria : Bool
  entranceHeading : String
  showConfiteor : Bool
  acclamation : AcclamationChoice
  showAdventWreath : Bool
  includePostlude : Bool
  showChildrenLiturgy : Bool
deriving DecidableEq, Repr

/-- The conditional-section decisions of the preview engine, transcribed
from `renderBookletHtml` in `template-renderer.js`. -/
def htmlSectionFlags (data : WeeklyRecord) : SectionFlags :=
  let d := applySeasonDefaults data
  let ss := d.seasonalSettings.getD emptySS
  let isLenten := d.liturgicalSeason = some "lent"
  let isAdvent := d.liturgicalSeason = some "advent"
  let showGloria :=
    match ss.gloria with
    | some b => b
    | none => (d.liturgicalSeason != some "lent") && (d.liturgicalSeason != some "advent")
  let entranceType := if strFalsy ss.entranceType then "processional" else ss.entranceType.getD ""
  let penitentialAct := if strFalsy ss.penitentialAct then "confiteor" else ss.penitentialAct.getD ""
  let acclamation :=
    if isLenten then
      if ss.lentenAcclamation = some "alternate" then AcclamationChoice.lentenAlt
      else AcclamationChoice.lenten
    else AcclamationChoice.standard
  { showGloria := showGloria
    entranceHeading := if entranceType = "processional" then "Processional Hymn" else "Entrance Antiphon"
    showConfiteor := penitentialAct = "confiteor"
    acclamation := acclamation
    showAdventWreath := ss.adventWreath.getD isAdvent
    includePostlude := ss.includePostlude.getD (!isLenten)
    showChildrenLiturgy := d.childrenLiturgyEnabled.getD false }

/-- The conditional-section decisions of the print engine, transcribed from
the `WorshipAidPdfGenerator` constructor and page renderers in
`pdf-generator.js`. -/
def pdfSectionFlags (data : WeeklyRecord) : SectionFlags :=
  let d := applySeasonDefaults data
  let ss := d.seasonalSettings.getD emptySS
  let isLenten := d.liturgicalSeason = some "lent"
  let isAdvent := d.liturgicalSeason = some "advent"
  let includePostlude := ss.includePostlude.getD (!isLenten)
  let showAdventWreath := ss.adventWreath.getD isAdvent
  let entranceType := if strFalsy ss.entranceType then "processional" else ss.entranceType.getD ""
  let showGloria :=
    match ss.gloria with
    | some b => b
    | none => (d.liturgicalSeason != some "lent") && (d.liturgicalSeason != some "advent")
  let acclamation :=
    if isLenten then
      if ss.lentenAcclamation = some "alternate" then AcclamationChoice.lentenAlt
      else AcclamationChoice.lenten
    else AcclamationChoice.standard
  { showGloria := showGloria
    entranceHeading := if entranceType = "processional" then "Processional Hymn" else "Entrance Antiphon"
    showConfiteor := (if strFalsy ss.penitentialAct then "confiteor" else ss.penitentialAct.getD "") = "confiteor"
    acclamation := acclamation
    showAdventWreath := showAdventWreath
    includePostlude := includePostlude
    showChildrenLiturgy := d.childrenLiturgyEnabled.getD false }

/-! ## Specification-side notions and helper lemmas -/

/-- A record with every field absent. -/
def emptyRecord : WeeklyRecord :=
  ⟨none, none, none, none, none, none, none, none, none, none⟩

/-- Spec-side reading of "the single largest contributing block, ties broken
by block declaration order": `b` occurs in `l` after exactly the blocks with
strictly fewer estimated lines, and no block of `l` exceeds it. -/
def isFirstMax (l : List Block) (b : Block) : Prop :=
  ∃ l1 l2, l = l1 ++ b :: l2 ∧ (∀ c ∈ l, c.lines ≤ b.lines) ∧ ∀ c ∈ l1, c.lines < b.lines

lemma foldl_add_eq_sum (g : Block → Nat) :
    ∀ (l : List Block) (init : Nat),
      l.foldl (fun t b => t + g b) init = init + (l.map g).sum := by
  intro l
  induction l with
  | nil => intro init; simp
  | cons b bs ih =>
    intro init
    simp only [List.foldl_cons, List.map_cons, List.sum_cons, ih]
    omega

lemma foldl_char_add_eq_sum (g : List Char → Nat) :
    ∀ (l : List (List Char)) (init : Nat),
      l.foldl (fun t line => t + g line) init = init + (l.map g).sum := by
  intro l
  induction l with
  | nil => intro init; simp
  | cons x xs ih =>
    intro init
    simp only [List.foldl_cons, List.map_cons, List.sum_cons, ih]
    omega

/-- Fact: `jsCeilDiv a b` really is the ceiling of `a / b`: the least number of
wrapped lines `n` with `a ≤ n * b`. -/
lemma jsCeilDiv_is_ceil (a b : Nat) (hb : 0 < b) :
    a ≤ jsCeilDiv a b * b ∧ ∀ k, a ≤ k * b → jsCeilDiv a b ≤ k := by
  constructor
  · have h := Nat.div_add_mod (a + b - 1) b
    have hm : (a + b - 1) % b < b := Nat.mod_lt _ hb
    unfold jsCeilDiv
    set q := (a + b - 1) / b with hq
    set m := (a + b - 1) % b with hmdef
    have hqb : b * q + m = a + b - 1 := h
    have : q * b = b * q := Nat.mul_comm _ _
    omega
  · intro k hk
    unfold jsCeilDiv
    have : a + b - 1 ≤ k * b + (b - 1) := by omega
    have h2 : (a + b - 1) / b ≤ (k * b + (b - 1)) / b := Nat.div_le_div_right this
    have h3 : (k * b + (b - 1)) / b = k + (b - 1) / b := by
      rw [Nat.add_comm (k * b) (b - 1), Nat.add_mul_div_right _ _ hb, Nat.add_comm]
    have h4 : (b - 1) / b = 0 := Nat.div_eq_of_lt (by omega)
    omega

/-- Lookup `getSeasonDefaults` always returns one of the five table rows. -/
lemma getSeasonDefaults_cases (s : String) :
    getSeasonDefaults s = ordinaryRules ∨ getSeasonDefaults s = adventRules ∨
    getSeasonDefaults s = christmasRules ∨ getSeasonDefaults s = lentRules ∨
    getSeasonDefaults s = easterRules := by
  unfold getSeasonDefaults SEASON_RULES
  by_cases h1 : s = "ordinary"
  · simp [List.lookup, h1]
  · have e1 : (s == "ordinary") = false := beq_eq_false_iff_ne.mpr h1
    by_cases h2 : s = "advent"
    · simp [List.lookup, e1, h2]
    · have e2 : (s == "advent") = false := beq_eq_false_iff_ne.mpr h2
      by_cases h3 : s = "christmas"
      · simp [List.lookup, e1, e2, h3]
      · have e3 : (s == "christmas") = false := beq_eq_false_iff_ne.mpr h3
        by_cases h4 : s = "lent"
        · simp [List.lookup, e1, e2, e3, h4]
        · have e4 : (s == "lent") = false := beq_eq_false_iff_ne.mpr h4
          by_cases h5 : s = "easter"
          · simp [List.lookup, e1, e2, e3, e4, h5]
          · have e5 : (s == "easter") = false := beq_eq_false_iff_ne.mpr h5
            simp [List.lookup, e1, e2, e3, e4, e5]

/-- Every season's defaults carry non-empty strings in the fields that
`applySeasonDefaults` fills with a falsiness check. -/
lemma getSeasonDefaults_nonempty (s : String) :
    (getSeasonDefaults s).creedType ≠ "" ∧ (getSeasonDefaults s).entranceType ≠ "" ∧
    (getSeasonDefaults s).holyHolySetting ≠ "" ∧
    (getSeasonDefaults s).mysteryOfFaithSetting ≠ "" ∧
    (getSeasonDefaults s).lambOfGodSetting ≠ "" ∧
    (getSeasonDefaults s).penitentialAct ≠ "" := by
  rcases getSeasonDefaults_cases s with h | h | h | h | h <;> rw [h] <;>
    refine ⟨by decide, by decide, by decide, by decide, by decide, by decide⟩

/-! ## C3: the line-estimation heuristic -/

/-- A 200-character sample line. -/
def aLine200 : String := String.mk (List.replicate 200 'a')

/-- C3: `estimateLines` returns 0 for missing or empty text; otherwise it
splits on explicit newlines and sums, per segment, the wrapped-line count —
which is exactly `⌈length / charsPerLine⌉` (the least `n` with
`length ≤ n * charsPerLine`) — floored at 1 line per segment; in particular
`estimateLines "" = 0`, `estimateLines "x" = 1`, and `estimateLines` of 200
copies of `'a'` is 4. -/
theorem C3_estimateLines_spec :
    estimateLines none = 0 ∧ estimateLines (some "") = 0 ∧
    (∀ s cpl, s ≠ "" →
      estimateLinesWith (some s) cpl =
        ((splitNl s.data).map (fun line => max 1 (jsCeilDiv line.length cpl))).sum) ∧
    (∀ len cpl, 0 < cpl →
      len ≤ jsCeilDiv len cpl * cpl ∧ ∀ k, len ≤ k * cpl → jsCeilDiv len cpl ≤ k) ∧
    estimateLines (some "x") = 1 ∧ estimateLines (some aLine200) = 4 := by
  refine ⟨rfl, by decide, ?_, ?_, by decide, by decide⟩
  · intro s cpl hs
    simp only [estimateLinesWith]
    rw [if_neg hs, foldl_char_add_eq_sum]
    omega
  · intro len cpl hcpl
    exact jsCeilDiv_is_ceil len cpl hcpl

/-- Witness for C3 at concrete inputs. -/
theorem C3_estimateLines_spec_witness :
    ("ab\ncdef" ≠ "" ∧
      estimateLinesWith (some "ab\ncdef") 3 =
        ((splitNl ("ab\ncdef").data).map (fun line => max 1 (jsCeilDiv line.length 3))).sum) ∧
    (0 < 65 ∧ 200 ≤ jsCeilDiv 200 65 * 65 ∧ jsCeilDiv 200 65 ≤ 4) :=
  ⟨⟨by decide, C3_estimateLines_spec.2.2.1 "ab\ncdef" 3 (by decide)⟩,
   by decide,
   (C3_estimateLines_spec.2.2.2.1 200 65 (by decide)).1,
   (C3_estimateLines_spec.2.2.2.1 200 65 (by decide)).2 4 (by decide)⟩

/-! ## C10: totality and fallback of `getSeasonDefaults` (corrected)

The claim as frozen says every invalid or missing tag falls back to the
`ordinary` bundle.  `SEASON_RULES` is a plain JS object, so the bracket
lookup walks the prototype chain: for a tag naming an `Object.prototype`
member (`"constructor"`, `"toString"`, `"__proto__"`, ...) the access yields
that truthy inherited member, defeating the `|| SEASON_RULES.ordinary`
fallback — and such tags are reachable, since the API passes the raw route
parameter straight in.  The function still never throws. -/

/-- C10 counterexample: the invalid tag `"constructor"` does *not* fall back
to the `ordinary` bundle — the lookup returns the member inherited from
`Object.prototype`. -/
theorem C10_counterexample_prototype_key :
    "constructor" ∉ SEASONS ∧
    getSeasonDefaultsJs "constructor" = JsLookupResult.inherited "constructor" ∧
    getSeasonDefaultsJs "constructor" ≠ JsLookupResult.bundle ordinaryRules := by
  refine ⟨by decide, by decide, by decide⟩

/-- C10 (amended): `getSeasonDefaults` is total and never throws: each of
the five valid season tags maps to its own fully-populated defaults row,
and any other tag falls back to the `ordinary` row *unless* it names a
member inherited from `Object.prototype` — for those tags the lookup
returns the truthy inherited member instead of the ordinary bundle. -/
theorem C10_getSeasonDefaults_total :
    getSeasonDefaultsJs "ordinary" = JsLookupResult.bundle ordinaryRules ∧
    getSeasonDefaultsJs "advent" = JsLookupResult.bundle adventRules ∧
    getSeasonDefaultsJs "christmas" = JsLookupResult.bundle christmasRules ∧
    getSeasonDefaultsJs "lent" = JsLookupResult.bundle lentRules ∧
    getSeasonDefaultsJs "easter" = JsLookupResult.bundle easterRules ∧
    (∀ s, s ∈ OBJECT_PROTOTYPE_MEMBERS →
      getSeasonDefaultsJs s = JsLookupResult.inherited s) ∧
    (∀ s, s ∉ SEASONS → s ∉ OBJECT_PROTOTYPE_MEMBERS →
      getSeasonDefaultsJs s = JsLookupResult.bundle ordinaryRules) := by
  refine ⟨by decide, by decide, by decide, by decide, by decide, ?_, ?_⟩
  · intro s hs
    simp only [OBJECT_PROTOTYPE_MEMBERS, List.mem_cons, List.not_mem_nil, or_false] at hs
    rcases hs with rfl | rfl | rfl | rfl | rfl | rfl | rfl | rfl | rfl | rfl | rfl | rfl <;>
      decide
  · intro s hs hp
    simp only [SEASONS, List.mem_cons, List.not_mem_nil, or_false, not_or] at hs
    obtain ⟨h1, h2, h3, h4, h5⟩ := hs
    have e1 : (s == "ordinary") = false := beq_eq_false_iff_ne.mpr h1
    have e2 : (s == "advent") = false := beq_eq_false_iff_ne.mpr h2
    have e3 : (s == "christmas") = false := beq_eq_false_iff_ne.mpr h3
    have e4 : (s == "lent") = false := beq_eq_false_iff_ne.mpr h4
    have e5 : (s == "easter") = false := beq_eq_false_iff_ne.mpr h5
    have hl : SEASON_RULES.lookup s = none := by
      unfold SEASON_RULES
      simp [List.lookup, e1, e2, e3, e4, e5]
    unfold getSeasonDefaultsJs seasonRulesAccess
    rw [hl]
    simp [hp]

/-- Witness for C10's amended statement at the invalid non-prototype tag
`"pentecost"` and the prototype member name `"toString"`. -/
theorem C10_getSeasonDefaults_total_witness :
    ("pentecost" ∉ SEASONS ∧ "pentecost" ∉ OBJECT_PROTOTYPE_MEMBERS ∧
      getSeasonDefaultsJs "pentecost" = JsLookupResult.bundle ordinaryRules) ∧
    ("toString" ∈ OBJECT_PROTOTYPE_MEMBERS ∧
      getSeasonDefaultsJs "toString" = JsLookupResult.inherited "toString") :=
  ⟨⟨by decide, by decide,
    C10_getSeasonDefaults_total.2.2.2.2.2.2 "pentecost" (by decide) (by decide)⟩,
   by decide,
   C10_getSeasonDefaults_total.2.2.2.2.2.1 "toString" (by decide)⟩

/-! ## C6: idempotence of `applySeasonDefaults` -/

lemma fillStr_idem (x : Option String) (d : String) (hd : d ≠ "") :
    (if strFalsy (if strFalsy x then some d else x) then some d
     else (if strFalsy x then some d else x)) = (if strFalsy x then some d else x) := by
  cases x with
  | none => simp [strFalsy, hd]
  | some v =>
    by_cases hv : v = "" <;> simp [strFalsy, hv, hd]

lemma fillBool_idem (x : Option Bool) (d : Bool) :
    (if (if x.isNone then some d else x).isNone then some d
     else (if x.isNone then some d else x)) = (if x.isNone then some d else x) := by
  cases x <;> simp

lemma seasonalSettings_ext {a b : SeasonalSettings}
    (h1 : a.gloria = b.gloria) (h2 : a.creedType = b.creedType)
    (h3 : a.entranceType = b.entranceType) (h4 : a.holyHolySetting = b.holyHolySetting)
    (h5 : a.mysteryOfFaithSetting = b.mysteryOfFaithSetting)
    (h6 : a.lambOfGodSetting = b.lambOfGodSetting) (h7 : a.penitentialAct = b.penitentialAct)
    (h8 : a.includePostlude = b.includePostlude) (h9 : a.adventWreath = b.adventWreath)
    (h10 : a.lentenAcclamation = b.lentenAcclamation) : a = b := by
  cases a; cases b; simp_all

lemma weeklyRecord_ext {a b : WeeklyRecord}
    (h1 : a.liturgicalSeason = b.liturgicalSeason) (h2 : a.gloria = b.gloria)
    (h3 : a.creedType = b.creedType) (h4 : a.entranceType = b.entranceType)
    (h5 : a.seasonalSettings = b.seasonalSettings) (h6 : a.readings = b.readings)
    (h7 : a.musicSat5pm = b.musicSat5pm) (h8 : a.musicSun9am = b.musicSun9am)
    (h9 : a.musicSun11am = b.musicSun11am)
    (h10 : a.childrenLiturgyEnabled = b.childrenLiturgyEnabled) : a = b := by
  cases a; cases b; simp_all

lemma resolveSS_idem (ss : SeasonalSettings) (d : SeasonDefaults)
    (h1 : d.holyHolySetting ≠ "") (h2 : d.mysteryOfFaithSetting ≠ "")
    (h3 : d.lambOfGodSetting ≠ "") (h4 : d.penitentialAct ≠ "") :
    resolveSS (resolveSS ss d) d = resolveSS ss d := by
  apply seasonalSettings_ext
  · rfl
  · rfl
  · rfl
  · exact fillStr_idem _ _ h1
  · exact fillStr_idem _ _ h2
  · exact fillStr_idem _ _ h3
  · exact fillStr_idem _ _ h4
  · exact fillBool_idem _ _
  · exact fillBool_idem _ _
  · rfl

lemma applyCore_idem (r : WeeklyRecord) (d : SeasonDefaults)
    (hc : d.creedType ≠ "") (he : d.entranceType ≠ "")
    (h1 : d.holyHolySetting ≠ "") (h2 : d.mysteryOfFaithSetting ≠ "")
    (h3 : d.lambOfGodSetting ≠ "") (h4 : d.penitentialAct ≠ "") :
    applyCore (applyCore r d) d = applyCore r d := by
  apply weeklyRecord_ext
  · rfl
  · exact fillBool_idem _ _
  · exact fillStr_idem _ _ hc
  · exact fillStr_idem _ _ he
  · show some (resolveSS ((some (resolveSS (r.seasonalSettings.getD emptySS) d)).getD emptySS) d) =
      some (resolveSS (r.seasonalSettings.getD emptySS) d)
    rw [Option.getD_some]
    exact congrArg some (resolveSS_idem _ _ h1 h2 h3 h4)
  · rfl
  · rfl
  · rfl
  · rfl
  · rfl

/-- C6: `applySeasonDefaults` is idempotent: resolving twice yields, field
for field, the same record as resolving once. -/
theorem C6_applySeasonDefaults_idempotent (r : WeeklyRecord) :
    applySeasonDefaults (applySeasonDefaults r) = applySeasonDefaults r := by
  by_cases h : strFalsy r.liturgicalSeason
  · simp [applySeasonDefaults, h]
  · have h1 : applySeasonDefaults r = applyCore r (getSeasonDefaults (r.liturgicalSeason.getD "")) := by
      rw [applySeasonDefaults, if_neg h]
    have hls : (applyCore r (getSeasonDefaults (r.liturgicalSeason.getD ""))).liturgicalSeason =
        r.liturgicalSeason := rfl
    have hne := getSeasonDefaults_nonempty (r.liturgicalSeason.getD "")
    rw [h1, applySeasonDefaults, hls, if_neg h]
    exact applyCore_idem r _ hne.1 hne.2.1 hne.2.2.1 hne.2.2.2.1 hne.2.2.2.2.1 hne.2.2.2.2.2

/-! ## C7: non-clobbering of explicit values (corrected)

The claim as frozen says fields already present — *including explicit
empty-string values* — are never overwritten.  `applySeasonDefaults` fills
the string-valued fields with a JS falsiness check (`!merged.creedType`),
which treats an explicit empty string like an absent value and overwrites
it, so the claim fails on empty strings; explicit booleans (checked with
`=== undefined`) and explicit non-empty strings are indeed preserved. -/

/-- A record carrying an explicit empty-string `creedType`. -/
def rEmptyCreed : WeeklyRecord := { emptyRecord with
  liturgicalSeason := some "ordinary", creedType := some "" }

/-- C7 counterexample: an explicit empty-string `creedType` is *not* left
untouched — `applySeasonDefaults` overwrites it with the season default. -/
theorem C7_counterexample_empty_string :
    rEmptyCreed.creedType = some "" ∧
    (applySeasonDefaults rEmptyCreed).creedType = some "nicene" := by
  exact ⟨rfl, by decide⟩

/-- C7 (amended): `applySeasonDefaults` fills the boolean fields only when
they are `undefined` (so an explicit `false` is preserved), fills the
string fields only when they are `undefined` or the empty string (so an
explicit *non-empty* string is preserved, but an explicit empty string is
overwritten), and never touches the `gloria`, `creedType`, `entranceType`
or `lentenAcclamation` keys *inside* `seasonalSettings` — in particular a
record carrying `seasonalSettings.gloria = true` keeps it `true` under a
season whose Gloria default is `false`. -/
theorem C7_applySeasonDefaults_non_clobbering (r : WeeklyRecord) :
    (∀ b, r.gloria = some b → (applySeasonDefaults r).gloria = some b) ∧
    (∀ v, r.creedType = some v → v ≠ "" → (applySeasonDefaults r).creedType = some v) ∧
    (∀ v, r.entranceType = some v → v ≠ "" → (applySeasonDefaults r).entranceType = some v) ∧
    (∀ ss, r.seasonalSettings = some ss →
      ∃ ss', (applySeasonDefaults r).seasonalSettings = some ss' ∧
        ss'.gloria = ss.gloria ∧ ss'.creedType = ss.creedType ∧
        ss'.entranceType = ss.entranceType ∧
        ss'.lentenAcclamation = ss.lentenAcclamation ∧
        (∀ v, ss.holyHolySetting = some v → v ≠ "" → ss'.holyHolySetting = some v) ∧
        (∀ v, ss.mysteryOfFaithSetting = some v → v ≠ "" →
          ss'.mysteryOfFaithSetting = some v) ∧
        (∀ v, ss.lambOfGodSetting = some v → v ≠ "" → ss'.lambOfGodSetting = some v) ∧
        (∀ v, ss.penitentialAct = some v → v ≠ "" → ss'.penitentialAct = some v) ∧
        (∀ b, ss.includePostlude = some b → ss'.includePostlude = some b) ∧
        (∀ b, ss.adventWreath = some b → ss'.adventWreath = some b)) := by
  by_cases h : strFalsy r.liturgicalSeason
  · simp only [applySeasonDefaults, h, if_true]
    refine ⟨fun b hb => hb, fun v hv _ => hv, fun v hv _ => hv, fun ss hss => ⟨ss, hss,
      rfl, rfl, rfl, rfl, fun v hv _ => hv, fun v hv _ => hv, fun v hv _ => hv,
      fun v hv _ => hv, fun b hb => hb, fun b hb => hb⟩⟩
  · simp only [applySeasonDefaults, h, if_false]
    refine ⟨?_, ?_, ?_, ?_⟩
    · intro b hb; simp [applyCore, hb]
    · intro v hv hne; simp [applyCore, hv, strFalsy, hne]
    · intro v hv hne; simp [applyCore, hv, strFalsy, hne]
    · intro ss hss
      refine ⟨resolveSS ss (getSeasonDefaults (r.liturgicalSeason.getD "")),
        by simp [applyCore, hss], ?_⟩
      unfold resolveSS
      refine ⟨rfl, rfl, rfl, rfl, ?_, ?_, ?_, ?_, ?_, ?_⟩ <;>
        first
          | (intro v hv hne; simp [hv, strFalsy, hne])
          | (intro b hb; simp [hb])

/-- Witness for C7's amended statement: under Lent (whose Gloria default is
`false`) an explicit top-level `gloria = true`, a non-empty explicit
`creedType`, an explicit `seasonalSettings.gloria = true` and an explicit
`includePostlude = true` all survive resolution. -/
theorem C7_applySeasonDefaults_non_clobbering_witness :
    (applySeasonDefaults { emptyRecord with
        liturgicalSeason := some "lent", gloria := some true,
        creedType := some "nicene",
        seasonalSettings := some { emptySS with
          gloria := some true, includePostlude := some true } }).gloria = some true ∧
    (applySeasonDefaults { emptyRecord with
        liturgicalSeason := some "lent", gloria := some true,
        creedType := some "nicene",
        seasonalSettings := some { emptySS with
          gloria := some true, includePostlude := some true } }).creedType = some "nicene" := by
  have h := C7_applySeasonDefaults_non_clobbering { emptyRecord with
    liturgicalSeason := some "lent", gloria := some true,
    creedType := some "nicene",
    seasonalSettings := some { emptySS with
      gloria := some true, includePostlude := some true } }
  exact ⟨h.1 true rfl, h.2.1 "nicene" rfl (by decide)⟩

/-! ## C8: mutation of the input record (code bug)

`applySeasonDefaults` shallow-copies the record (`const merged = {...data}`)
and then assigns into `merged.seasonalSettings`, which aliases the caller's
nested `seasonalSettings` object whenever one exists, so the function
mutates its input's nested block in place. -/

/-- A record with a season and an (empty) explicit `seasonalSettings`
object. -/
def rAliased : WeeklyRecord := { emptyRecord with
  liturgicalSeason := some "lent", seasonalSettings := some emptySS }

/-- C8 refutation at a concrete input: after `applySeasonDefaults(rAliased)`
returns, the caller's record is no longer equal to what was passed in — the
aliased nested `seasonalSettings` object now carries the Lent defaults. -/
theorem C8_input_mutated :
    applySeasonDefaultsInputAfter rAliased ≠ rAliased ∧
    (rAliased.seasonalSettings.bind SeasonalSettings.holyHolySetting) = none ∧
    ((applySeasonDefaultsInputAfter rAliased).seasonalSettings.bind
      SeasonalSettings.holyHolySetting) = some "Vatican Edition XVIII" ∧
    ((applySeasonDefaultsInputAfter rAliased).seasonalSettings.bind
      SeasonalSettings.includePostlude) = some false := by
  refine ⟨by decide, rfl, by decide, by decide⟩

/-! ## C9: overflow detection after season resolution (code bug)

`applySeasonDefaults` writes the resolved creed variant to the *top-level*
`creedType` field, while `detectOverflows` reads
`data.seasonalSettings?.creedType`; a record resolved from season `lent`
with no explicit overrides therefore never matches `'apostles'` in the
overflow check and is charged the longer (Nicene, 32-line) creed constant
instead of the shorter (Apostles, 18-line) one. -/

/-- A Gospel text of 50 short lines (estimated at 50 lines). -/
def gospel50 : String := joinSep "\n" (List.replicate 50 "x")

/-- A Lent record with no explicit overrides and a 50-line Gospel. -/
def rLent50 : WeeklyRecord := { emptyRecord with
  liturgicalSeason := some "lent",
  readings := some { emptyReadings with gospelText := some gospel50 } }

/-- C9 at the failing input: resolution produces exactly the claimed Lent
values (`gloria=false`, `creedType="apostles"`, `entranceType="antiphon"`,
`includePostlude=false`, `adventWreath=false`), and the 50-line Gospel
would fit page 4 under the resolved Apostles constant (50 + 18 ≤ 75) — yet
`detectOverflows` on the resolved record still charges the 32-line Nicene
constant (the resolved record's `seasonalSettings.creedType` is absent) and
emits a page-4 finding. -/
theorem C9_resolution_not_consumed :
    (applySeasonDefaults rLent50).gloria = some false ∧
    (applySeasonDefaults rLent50).creedType = some "apostles" ∧
    (applySeasonDefaults rLent50).entranceType = some "antiphon" ∧
    ((applySeasonDefaults rLent50).seasonalSettings.bind
      SeasonalSettings.includePostlude) = some false ∧
    ((applySeasonDefaults rLent50).seasonalSettings.bind
      SeasonalSettings.adventWreath) = some false ∧
    ((applySeasonDefaults rLent50).seasonalSettings.bind
      SeasonalSettings.creedType) = none ∧
    estimateLines (some gospel50) + 18 ≤ 75 ∧
    creedLinesOf (applySeasonDefaults rLent50) = 32 ∧
    (detectOverflows (applySeasonDefaults rLent50)).map OverflowWarning.page = [4] := by
  refine ⟨by decide, by decide, by decide, by decide, by decide, by decide, by decide,
    by decide, by decide⟩

/-! ## C2: one finding per page, naming the first-largest block -/

lemma reduceBiggest_foldl_isFirstMax :
    ∀ (bs : List Block) (a : Block),
      isFirstMax (a :: bs) (bs.foldl (fun x c => if c.lines > x.lines then c else x) a) := by
  intro bs
  induction bs with
  | nil =>
    intro a
    exact ⟨[], [], rfl, by simp, by simp⟩
  | cons b bs ih =>
    intro a
    by_cases hb : b.lines > a.lines
    · have hfold : (b :: bs).foldl (fun x c => if c.lines > x.lines then c else x) a =
          bs.foldl (fun x c => if c.lines > x.lines then c else x) b := by
        simp [List.foldl_cons, if_pos hb]
      rw [hfold]
      obtain ⟨l1, l2, heq, hall, hstrict⟩ := ih b
      have hbr : b.lines ≤ (bs.foldl (fun x c => if c.lines > x.lines then c else x) b).lines :=
        hall b (List.mem_cons_self _ _)
      refine ⟨a :: l1, l2, by rw [List.cons_append, heq], ?_, ?_⟩
      · intro c hc
        rcases List.mem_cons.mp hc with h | h
        · subst h; omega
        · exact hall c h
      · intro c hc
        rcases List.mem_cons.mp hc with h | h
        · subst h; omega
        · exact hstrict c h
    · have hfold : (b :: bs).foldl (fun x c => if c.lines > x.lines then c else x) a =
          bs.foldl (fun x c => if c.lines > x.lines then c else x) a := by
        simp [List.foldl_cons, if_neg hb]
      rw [hfold]
      obtain ⟨l1, l2, heq, hall, hstrict⟩ := ih a
      rcases l1 with _ | ⟨a', l1t⟩
      · -- the fold result is the head `a` itself
        rw [List.nil_append] at heq
        have ha : bs.foldl (fun x c => if c.lines > x.lines then c else x) a = a :=
          (List.cons.injEq .. ▸ heq).1.symm
        refine ⟨[], b :: bs, by rw [List.nil_append, ha], ?_, by simp⟩
        intro c hc
        rcases List.mem_cons.mp hc with h | h
        · subst h; rw [ha]
        · rcases List.mem_cons.mp h with h' | h'
          · subst h'; rw [ha]; omega
          · exact hall c (List.mem_cons_of_mem _ h')
      · -- the fold result sits strictly inside `bs`
        have ha' : a' = a := by
          have := congrArg List.head? heq
          simpa using this.symm
        subst ha'
        have htail : bs = l1t ++
            (bs.foldl (fun x c => if c.lines > x.lines then c else x) a') :: l2 := by
          have := congrArg List.tail heq
          simpa using this
        have hastrict : a'.lines <
            (bs.foldl (fun x c => if c.lines > x.lines then c else x) a').lines :=
          hstrict a' (List.mem_cons_self _ _)
        refine ⟨a' :: b :: l1t, l2, by rw [List.cons_append, List.cons_append, ← htail], ?_, ?_⟩
        · intro c hc
          rcases List.mem_cons.mp hc with h | h
          · subst h; omega
          · rcases List.mem_cons.mp h with h' | h'
            · subst h'; omega
            · exact hall c (List.mem_cons_of_mem _ h')
        · intro c hc
          rcases List.mem_cons.mp hc with h | h
          · subst h; exact hastrict
          · rcases List.mem_cons.mp h with h' | h'
            · subst h'; omega
            · exact hstrict c (List.mem_cons_of_mem _ h')

/-- Fold `reduceBiggest` on a non-empty block list returns the first block
attaining the maximum estimated line count. -/
lemma reduceBiggest_isFirstMax (a : Block) (bs : List Block) :
    isFirstMax (a :: bs) (reduceBiggest (a :: bs)) :=
  reduceBiggest_foldl_isFirstMax bs a

/-! ## C5: print / preview engine parity -/

/-- C5: on every record, the print engine and the preview engine make
identical conditional-section decisions — Gloria, Processional-Hymn versus
Entrance-Antiphon heading, confession text, standard versus lenten (and
alternate-lenten) gospel acclamation, Advent-wreath banner, organ-postlude
section, and children's-liturgy callout. -/
theorem C5_engine_parity (r : WeeklyRecord) : pdfSectionFlags r = htmlSectionFlags r := rfl

/-! ## C1: the two monitored pages and creed sensitivity -/

/-- The record with the slot's creed variant set: the field
`detectOverflows` consults is `seasonalSettings.creedType`. -/
def withCreed (d : WeeklyRecord) (c : String) : WeeklyRecord :=
  { d with seasonalSettings := some { (d.seasonalSettings.getD emptySS) with creedType := some c } }

/-- The page-3 line total of a record, spelled out as the claim describes
it: first reading, psalm verses plus refrain, second reading (zero under
the no-second-reading flag), plus the fixed 3-line acclamation allowance. -/
def page3TotalSpec (d : WeeklyRecord) : Nat :=
  estimateLines (d.readings.getD emptyReadings).firstReadingText +
    (estimateLines (d.readings.getD emptyReadings).psalmVerses +
      estimateLines (d.readings.getD emptyReadings).psalmRefrain) +
    (if (d.readings.getD emptyReadings).noSecondReading.getD false then 0
      else estimateLines (d.readings.getD emptyReadings).secondReadingText) + 3

/-- The page-4 line total of a record, spelled out as the claim describes
it: the gospel estimate plus 18 under the Apostles variant, 32 otherwise. -/
def page4TotalSpec (d : WeeklyRecord) : Nat :=
  estimateLines (d.readings.getD emptyReadings).gospelText +
    (if (d.seasonalSettings.bind SeasonalSettings.creedType) = some "apostles" then 18 else 32)

lemma detectOverflows_cases (d : WeeklyRecord) :
    detectOverflows d =
      (if page3TotalSpec d > 85 then
        [⟨3, "error",
          page3Message (reduceBiggest (page3Blocks (d.readings.getD emptyReadings))).name
            (reduceBiggest (page3Blocks (d.readings.getD emptyReadings))).lines
            (page3TotalSpec d - 85)⟩]
      else []) ++
      (if page4TotalSpec d > 75 then
        [⟨4, "error",
          page4Message (reduceBiggest (page4Blocks d (d.readings.getD emptyReadings))).name
            (page4TotalSpec d - 75)⟩]
      else []) := by
  have h3 : ((page3Blocks (d.readings.getD emptyReadings)).map Block.lines).sum =
      page3TotalSpec d := by
    simp [page3Blocks, page3TotalSpec]
    omega
  have h4 : ((page4Blocks d (d.readings.getD emptyReadings)).map Block.lines).sum =
      page4TotalSpec d := by
    simp [page4Blocks, page4TotalSpec, creedLinesOf]
  unfold detectOverflows
  dsimp only
  rw [h3, h4]

/-- C1: `detectOverflows` monitors exactly pages 3 and 4; a page-3 finding
is emitted exactly when the claim's page-3 sum exceeds the 85-line budget
and a page-4 finding exactly when the gospel estimate plus the fixed creed
constant (18 for the Apostles variant, 32 — larger — otherwise) exceeds the
75-line budget; consequently, whenever a gospel text overflows page 4 only
under the longer creed constant, the record with the Nicene variant gets the
page-4 finding and the record with the Apostles variant does not. -/
theorem C1_detectOverflows_pages_and_creed :
    (∀ d, ∀ w ∈ detectOverflows d, w.page = 3 ∨ w.page = 4) ∧
    (∀ d, (∃ w ∈ detectOverflows d, w.page = 3) ↔ 85 < page3TotalSpec d) ∧
    (∀ d, (∃ w ∈ detectOverflows d, w.page = 4) ↔ 75 < page4TotalSpec d) ∧
    (18 : Nat) < 32 ∧
    (∀ d, 75 < estimateLines (d.readings.getD emptyReadings).gospelText + 32 →
      estimateLines (d.readings.getD emptyReadings).gospelText + 18 ≤ 75 →
      ((∃ w ∈ detectOverflows (withCreed d "nicene"), w.page = 4) ∧
        ¬(∃ w ∈ detectOverflows (withCreed d "apostles"), w.page = 4))) := by
  have hpages : ∀ d, ∀ w ∈ detectOverflows d, w.page = 3 ∨ w.page = 4 := by
    intro d w hw
    rw [detectOverflows_cases] at hw
    rcases List.mem_append.mp hw with h | h <;> split at h <;>
      simp_all
  have h3iff : ∀ d, (∃ w ∈ detectOverflows d, w.page = 3) ↔ 85 < page3TotalSpec d := by
    intro d
    rw [detectOverflows_cases]
    by_cases h : page3TotalSpec d > 85 <;> by_cases h' : page4TotalSpec d > 75 <;>
      simp [h, h']
  have h4iff : ∀ d, (∃ w ∈ detectOverflows d, w.page = 4) ↔ 75 < page4TotalSpec d := by
    intro d
    rw [detectOverflows_cases]
    by_cases h : page3TotalSpec d > 85 <;> by_cases h' : page4TotalSpec d > 75 <;>
      simp [h, h']
  refine ⟨hpages, h3iff, h4iff, by omega, ?_⟩
  intro d hbig hfit
  have hreads : ∀ c, ((withCreed d c).readings.getD emptyReadings) =
      (d.readings.getD emptyReadings) := fun c => rfl
  constructor
  · rw [h4iff]
    unfold page4TotalSpec
    rw [hreads]
    have hcl : ((withCreed d "nicene").seasonalSettings.bind SeasonalSettings.creedType) =
        some "nicene" := rfl
    rw [hcl, if_neg (by decide : ¬((some "nicene" : Option String) = some "apostles"))]
    omega
  · rw [h4iff]
    unfold page4TotalSpec
    rw [hreads]
    have hcl : ((withCreed d "apostles").seasonalSettings.bind SeasonalSettings.creedType) =
        some "apostles" := rfl
    rw [hcl, if_pos rfl]
    omega

/-- Witness for C1 at a concrete record: a 50-line gospel overflows page 4
under the Nicene constant but not under the Apostles constant. -/
theorem C1_detectOverflows_pages_and_creed_witness :
    (75 < estimateLines (rLent50.readings.getD emptyReadings).gospelText + 32 ∧
      estimateLines (rLent50.readings.getD emptyReadings).gospelText + 18 ≤ 75) ∧
    ((∃ w ∈ detectOverflows (withCreed rLent50 "nicene"), w.page = 4) ∧
      ¬(∃ w ∈ detectOverflows (withCreed rLent50 "apostles"), w.page = 4)) :=
  ⟨⟨by decide, by decide⟩,
    C1_detectOverflows_pages_and_creed.2.2.2.2 rLent50 (by decide) (by decide)⟩

/-- C2: for every record, `detectOverflows` emits at most one finding per
page, and exactly one finding for a monitored page exactly when that page's
summed estimate exceeds its budget; the finding's message is the fixed
template instantiated with the first block attaining the maximal estimated
line count (ties resolved to the earliest-declared block) and with
`total - budget` as the lines-over figure; in particular a record whose
first-reading text alone estimates over 85 lines, all other text fields
empty, yields exactly the single page-3 finding naming the first reading. -/
theorem C2_detectOverflows_single_finding :
    (∀ d p, ((detectOverflows d).filter (fun w => w.page == p)).length ≤ 1) ∧
    (∀ d, (((detectOverflows d).filter (fun w => w.page == 3)).length = 1 ↔
      85 < page3TotalSpec d)) ∧
    (∀ d, (((detectOverflows d).filter (fun w => w.page == 4)).length = 1 ↔
      75 < page4TotalSpec d)) ∧
    (∀ d, 85 < page3TotalSpec d →
      ∃ b, isFirstMax (page3Blocks (d.readings.getD emptyReadings)) b ∧
        (detectOverflows d).filter (fun w => w.page == 3) =
          [⟨3, "error", page3Message b.name b.lines (page3TotalSpec d - 85)⟩]) ∧
    (∀ d, 75 < page4TotalSpec d →
      ∃ b, isFirstMax (page4Blocks d (d.readings.getD emptyReadings)) b ∧
        (detectOverflows d).filter (fun w => w.page == 4) =
          [⟨4, "error", page4Message b.name (page4TotalSpec d - 75)⟩]) ∧
    (∀ d rr t, d.readings = some rr → rr.firstReadingText = some t →
      rr.psalmRefrain = none → rr.psalmVerses = none → rr.secondReadingText = none →
      rr.gospelText = none → 85 < estimateLines (some t) →
      detectOverflows d = [⟨3, "error",
        page3Message "First Reading" (estimateLines (some t))
          (estimateLines (some t) + 3 - 85)⟩]) := by
  refine ⟨?_, ?_, ?_, ?_, ?_, ?_⟩
  · intro d p
    rw [detectOverflows_cases]
    by_cases hp3 : p = 3
    · subst hp3
      by_cases h3 : page3TotalSpec d > 85 <;> by_cases h4 : page4TotalSpec d > 75 <;>
        simp [h3, h4, List.filter]
    · by_cases hp4 : p = 4
      · subst hp4
        by_cases h3 : page3TotalSpec d > 85 <;> by_cases h4 : page4TotalSpec d > 75 <;>
          simp [h3, h4, List.filter]
      · have e3 : ((3 : Nat) == p) = false := beq_eq_false_iff_ne.mpr (fun h => hp3 h.symm)
        have e4 : ((4 : Nat) == p) = false := beq_eq_false_iff_ne.mpr (fun h => hp4 h.symm)
        by_cases h3 : page3TotalSpec d > 85 <;> by_cases h4 : page4TotalSpec d > 75 <;>
          simp [h3, h4, List.filter, e3, e4]
  · intro d
    rw [detectOverflows_cases]
    by_cases h3 : page3TotalSpec d > 85 <;> by_cases h4 : page4TotalSpec d > 75 <;>
      simp [h3, h4, List.filter]
  · intro d
    rw [detectOverflows_cases]
    by_cases h3 : page3TotalSpec d > 85 <;> by_cases h4 : page4TotalSpec d > 75 <;>
      simp [h3, h4, List.filter]
  · intro d h3
    refine ⟨reduceBiggest (page3Blocks (d.readings.getD emptyReadings)), ?_, ?_⟩
    · exact reduceBiggest_isFirstMax _ _
    · rw [detectOverflows_cases]
      by_cases h4 : page4TotalSpec d > 75 <;> simp [h3, h4, List.filter]
  · intro d h4
    refine ⟨reduceBiggest (page4Blocks d (d.readings.getD emptyReadings)), ?_, ?_⟩
    · exact reduceBiggest_isFirstMax _ _
    · rw [detectOverflows_cases]
      by_cases h3 : page3TotalSpec d > 85 <;> simp [h3, h4, List.filter]
  · intro d rr t hrd hft hpr hpv hsr hg hbig
    have hRR : d.readings.getD emptyReadings = rr := by rw [hrd]; rfl
    have ht : page3TotalSpec d = estimateLines (some t) + 3 := by
      unfold page3TotalSpec
      rw [hRR, hft, hpr, hpv, hsr]
      simp [estimateLines, estimateLinesWith, ite_self]
    have hnone : estimateLines none = 0 := rfl
    have hbr : reduceBiggest (page3Blocks rr) = ⟨"First Reading", estimateLines (some t)⟩ := by
      unfold page3Blocks reduceBiggest
      rw [hft, hpr, hpv, hsr]
      simp only [List.foldl_cons, List.foldl_nil, hnone, Nat.add_zero, ite_self]
      simp only [gt_iff_lt, Nat.not_lt_zero, if_false]
      rw [if_neg (by omega)]
    have h4 : ¬ (page4TotalSpec d > 75) := by
      unfold page4TotalSpec
      rw [hRR, hg]
      simp only [estimateLines, estimateLinesWith]
      split <;> omega
    rw [detectOverflows_cases, hRR, if_pos (by omega), if_neg h4, hbr, ht]
    simp

/-- An 86-line first-reading text. -/
def text86 : String := joinSep "\n" (List.replicate 86 "x")

/-- A record whose only content is the 86-line first reading. -/
def rFirst86 : WeeklyRecord := { emptyRecord with
  readings := some { emptyReadings with firstReadingText := some text86 } }

/-- Witness for C2 at the concrete 86-line first reading. -/
theorem C2_detectOverflows_single_finding_witness :
    85 < estimateLines (some text86) ∧
    detectOverflows rFirst86 = [⟨3, "error",
      page3Message "First Reading" (estimateLines (some text86))
        (estimateLines (some text86) + 3 - 85)⟩] :=
  ⟨by decide,
    C2_detectOverflows_single_finding.2.2.2.2.2 rFirst86
      { emptyReadings with firstReadingText := some text86 } text86
      rfl rfl rfl rfl rfl rfl (by decide)⟩

/-! ## C4: music consolidation

`formatMusicSlot` groups surviving entries in a JS `Map` keyed by the
*string* `` `${title}|||${composer}` ``.  That key coincides with the exact
(title, composer) pair exactly when the separator cannot be forged, e.g.
when no title or composer contains the bar character; otherwise two
distinct pairs can collide on one key.  The definitions below give the
spec's pair-keyed grouping for comparison. -/

/-- The string key `formatMusicSlot` groups by. -/
def strKey (t c : String) : String := t ++ "|||" ++ c

/-- One step of the grouping loop keyed, as the spec words it, by the exact
(title, composer) pair. -/
def insertGroupedPair (gs : List ((String × String) × MusicGroup)) (e : MusicEntry) :
    List ((String × String) × MusicGroup) :=
  if gs.any (fun p => p.1 = (e.title, e.composer)) then
    gs.map (fun p =>
      if p.1 = (e.title, e.composer) then
        (p.1, { p.2 with times := p.2.times ++ [e.time] })
      else p)
  else gs ++ [((e.title, e.composer), ⟨e.title, e.composer, [e.time]⟩)]

/-- The group list under pair keying. -/
def groupListPair (entries : List MusicEntry) : List MusicGroup :=
  (entries.foldl insertGroupedPair []).map Prod.snd

/-- Consolidation following the spec's words: group the survivors by the
exact (title, composer) pair, then collapse or qualify exactly as
`formatMusicSlot` does. -/
def consolidateByPairSpec (data : WeeklyRecord) (titleField composerField : String) :
    List DisplayEntry :=
  if slotEntries data titleField composerField = [] then []
  else
    match groupListPair (slotEntries data titleField composerField) with
    | [g] => [⟨g.title, g.composer, ""⟩]
    | gs => gs.map (fun g => ⟨g.title, g.composer, formatTimeLabel g.times⟩)

lemma string_data_eq {a b : String} (h : a.data = b.data) : a = b := by
  cases a; cases b; exact congrArg String.mk h

lemma data_append (a b : String) : (a ++ b).data = a.data ++ b.data := by
  cases a; cases b; rfl

lemma sepInj :
    ∀ (l1 l2 r1 r2 : List Char), '|' ∉ l1 → '|' ∉ l2 →
      l1 ++ '|' :: '|' :: '|' :: r1 = l2 ++ '|' :: '|' :: '|' :: r2 →
      l1 = l2 ∧ r1 = r2 := by
  intro l1
  induction l1 with
  | nil =>
    intro l2 r1 r2 h1 h2 heq
    cases l2 with
    | nil => simpa using heq
    | cons c l2t =>
      exfalso
      rw [List.nil_append, List.cons_append] at heq
      obtain ⟨hc, -⟩ := List.cons.inj heq
      exact h2 (hc ▸ List.mem_cons_self _ _)
  | cons a l1t ih =>
    intro l2 r1 r2 h1 h2 heq
    cases l2 with
    | nil =>
      exfalso
      rw [List.cons_append, List.nil_append] at heq
      obtain ⟨hc, -⟩ := List.cons.inj heq
      exact h1 (hc ▸ List.mem_cons_self _ _)
    | cons b l2t =>
      rw [List.cons_append, List.cons_append] at heq
      obtain ⟨hab, htail⟩ := List.cons.inj heq
      have h1t : '|' ∉ l1t := fun h => h1 (List.mem_cons_of_mem _ h)
      have h2t : '|' ∉ l2t := fun h => h2 (List.mem_cons_of_mem _ h)
      obtain ⟨hl, hr⟩ := ih l2t r1 r2 h1t h2t htail
      exact ⟨by rw [hab, hl], hr⟩

/-- When neither title contains a bar character, equal string keys force
equal (title, composer) pairs. -/
lemma strKey_inj (t1 c1 t2 c2 : String)
    (h1 : '|' ∉ t1.data) (h2 : '|' ∉ t2.data) (h : strKey t1 c1 = strKey t2 c2) :
    t1 = t2 ∧ c1 = c2 := by
  have hd : t1.data ++ '|' :: '|' :: '|' :: c1.data =
      t2.data ++ '|' :: '|' :: '|' :: c2.data := by
    have h' := congrArg String.data h
    simp only [strKey, data_append] at h'
    simpa using h'
  obtain ⟨ht, hc⟩ := sepInj t1.data t2.data c1.data c2.data h1 h2 hd
  exact ⟨string_data_eq ht, string_data_eq hc⟩

lemma any_map' {α β : Type} (l : List α) (f : α → β) (p : β → Bool) :
    (l.map f).any p = l.any (fun a => p (f a)) := by
  induction l with
  | nil => rfl
  | cons a t ih => simp [List.any_cons, ih]

lemma any_congr_mem {α : Type} (l : List α) (p q : α → Bool)
    (h : ∀ x ∈ l, p x = q x) : l.any p = l.any q := by
  induction l with
  | nil => rfl
  | cons a t ih =>
    simp only [List.any_cons, h a (List.mem_cons_self _ _),
      ih (fun x hx => h x (List.mem_cons_of_mem _ hx))]

/-- Bar-freedom of keys is preserved by the pair-keyed insertion. -/
lemma insertGroupedPair_nobar (gs : List ((String × String) × MusicGroup)) (e : MusicEntry)
    (he1 : '|' ∉ e.title.data) (he2 : '|' ∉ e.composer.data)
    (hg : ∀ p ∈ gs, '|' ∉ p.1.1.data ∧ '|' ∉ p.1.2.data) :
    ∀ p ∈ insertGroupedPair gs e, '|' ∉ p.1.1.data ∧ '|' ∉ p.1.2.data := by
  intro p hp
  unfold insertGroupedPair at hp
  split at hp
  · obtain ⟨q, hq, hfq⟩ := List.mem_map.mp hp
    split at hfq <;> rw [← hfq] <;> exact hg q hq
  · rcases List.mem_append.mp hp with h | h
    · exact hg p h
    · simp only [List.mem_singleton] at h
      rw [h]
      exact ⟨he1, he2⟩

/-- One insertion step: the string-keyed map is the image of the
pair-keyed map when no bar characters occur. -/
lemma insertGrouped_map_pair (gs : List ((String × String) × MusicGroup)) (e : MusicEntry)
    (he1 : '|' ∉ e.title.data) (_he2 : '|' ∉ e.composer.data)
    (hg : ∀ p ∈ gs, '|' ∉ p.1.1.data ∧ '|' ∉ p.1.2.data) :
    insertGrouped (gs.map (fun p => (strKey p.1.1 p.1.2, p.2))) e =
      (insertGroupedPair gs e).map (fun p => (strKey p.1.1 p.1.2, p.2)) := by
  have hkey : ∀ p ∈ gs,
      (decide (strKey p.1.1 p.1.2 = strKey e.title e.composer)) =
        (decide (p.1 = (e.title, e.composer))) := by
    intro p hp
    by_cases h : p.1 = (e.title, e.composer)
    · have : strKey p.1.1 p.1.2 = strKey e.title e.composer := by rw [h]
      simp [h, this]
    · have : ¬ strKey p.1.1 p.1.2 = strKey e.title e.composer := by
        intro hk
        obtain ⟨ht, hc⟩ := strKey_inj _ _ _ _ (hg p hp).1 he1 hk
        exact h (Prod.ext ht hc)
      simp [h, this]
  unfold insertGrouped insertGroupedPair
  have hany : ((gs.map (fun p => (strKey p.1.1 p.1.2, p.2))).any
      (fun p => p.1 = e.title ++ "|||" ++ e.composer)) =
      (gs.any (fun p => p.1 = (e.title, e.composer))) := by
    rw [any_map']
    exact any_congr_mem gs _ _ hkey
  rw [hany]
  split
  · rw [List.map_map, List.map_map]
    apply List.map_congr_left
    intro q hq
    simp only [Function.comp_apply]
    by_cases h : q.1 = (e.title, e.composer)
    · have hk : strKey q.1.1 q.1.2 = e.title ++ "|||" ++ e.composer := by rw [h]; rfl
      rw [if_pos h, if_pos hk]
    · have hk : ¬ strKey q.1.1 q.1.2 = e.title ++ "|||" ++ e.composer := by
        intro hkk
        obtain ⟨ht, hc⟩ := strKey_inj _ _ _ _ (hg q hq).1 he1 hkk
        exact h (Prod.ext ht hc)
      rw [if_neg h, if_neg hk]
  · rw [List.map_append]
    rfl

/-- The whole grouping loop: string keying and pair keying build the same
groups when no bar characters occur among the surviving entries. -/
lemma foldl_grouped_map_pair :
    ∀ (es : List MusicEntry) (gs : List ((String × String) × MusicGroup)),
      (∀ e ∈ es, '|' ∉ e.title.data ∧ '|' ∉ e.composer.data) →
      (∀ p ∈ gs, '|' ∉ p.1.1.data ∧ '|' ∉ p.1.2.data) →
      es.foldl insertGrouped (gs.map (fun p => (strKey p.1.1 p.1.2, p.2))) =
        (es.foldl insertGroupedPair gs).map (fun p => (strKey p.1.1 p.1.2, p.2)) := by
  intro es
  induction es with
  | nil => intro gs _ _; rfl
  | cons e es ih =>
    intro gs hes hgs
    have he := hes e (List.mem_cons_self _ _)
    rw [List.foldl_cons, List.foldl_cons,
      insertGrouped_map_pair gs e he.1 he.2 hgs]
    exact ih (insertGroupedPair gs e)
      (fun x hx => hes x (List.mem_cons_of_mem _ hx))
      (insertGroupedPair_nobar gs e he.1 he.2 hgs)

/-- Groupings `groupListStr` and `groupListPair` agree when no entry carries a bar
character. -/
lemma groupList_eq_of_nobar (es : List MusicEntry)
    (h : ∀ e ∈ es, '|' ∉ e.title.data ∧ '|' ∉ e.composer.data) :
    groupListStr es = groupListPair es := by
  unfold groupListStr groupListPair
  have := foldl_grouped_map_pair es [] h (by intro p hp; cases hp)
  rw [show ([] : List (String × MusicGroup)) =
    (([] : List ((String × String) × MusicGroup)).map (fun p => (strKey p.1.1 p.1.2, p.2)))
    from rfl, this, List.map_map]
  rfl

lemma collapse_fold :
    ∀ (rest : List MusicEntry) (k : String) (g : MusicGroup),
      (∀ e' ∈ rest, e'.title ++ "|||" ++ e'.composer = k) →
      ∃ g', rest.foldl insertGrouped [(k, g)] = [(k, g')] ∧
        g'.title = g.title ∧ g'.composer = g.composer := by
  intro rest
  induction rest with
  | nil => intro k g _; exact ⟨g, rfl, rfl, rfl⟩
  | cons e' rest ih =>
    intro k g hk
    have hke := hk e' (List.mem_cons_self _ _)
    have hstep : insertGrouped [(k, g)] e' =
        [(k, { g with times := g.times ++ [e'.time] })] := by
      unfold insertGrouped
      rw [if_pos (by simp [hke])]
      simp [hke.symm]
    rw [List.foldl_cons, hstep]
    obtain ⟨g'', h1, h2, h3⟩ :=
      ih k { g with times := g.times ++ [e'.time] }
        (fun x hx => hk x (List.mem_cons_of_mem _ hx))
    exact ⟨g'', h1, h2, h3⟩

/-- C4 (amended): the consolidator reads the slot's title/composer for the
three service times in chronological order and discards empty titles
(`slotEntries`); it groups survivors by the string `title ++ "|||" ++ composer`,
which coincides with grouping by the exact (title, composer) pair whenever
no surviving title or composer contains a bar character — under that proviso
the output is exactly the spec's pair-grouped consolidation; zero survivors
always give the empty list, and identically-selected survivors always
collapse to one entry with an empty time qualifier. -/
theorem C4_formatMusicSlot_grouping (d : WeeklyRecord) (tf cf : String)
    (hnb : ∀ e ∈ slotEntries d tf cf, '|' ∉ e.title.data ∧ '|' ∉ e.composer.data) :
    formatMusicSlot d tf cf = consolidateByPairSpec d tf cf ∧
    (slotEntries d tf cf = [] → formatMusicSlot d tf cf = []) ∧
    (∀ e rest, slotEntries d tf cf = e :: rest →
      (∀ e' ∈ rest, e'.title = e.title ∧ e'.composer = e.composer) →
      formatMusicSlot d tf cf = [⟨e.title, e.composer, ""⟩]) := by
  refine ⟨?_, ?_, ?_⟩
  · unfold formatMusicSlot consolidateByPairSpec
    rw [groupList_eq_of_nobar _ hnb]
  · intro h
    unfold formatMusicSlot
    rw [if_pos h]
  · intro e rest hsplit hall
    unfold formatMusicSlot
    rw [hsplit, if_neg (by simp)]
    have hfirst : insertGrouped [] e =
        [(e.title ++ "|||" ++ e.composer, ⟨e.title, e.composer, [e.time]⟩)] := by
      unfold insertGrouped
      rw [if_neg (by simp)]
      rfl
    have hkeys : ∀ e' ∈ rest, e'.title ++ "|||" ++ e'.composer =
        e.title ++ "|||" ++ e.composer := by
      intro e' he'
      rw [(hall e' he').1, (hall e' he').2]
    obtain ⟨g', hg', ht, hc⟩ := collapse_fold rest (e.title ++ "|||" ++ e.composer)
      ⟨e.title, e.composer, [e.time]⟩ hkeys
    have hgl : groupListStr (e :: rest) = [g'] := by
      unfold groupListStr
      rw [List.foldl_cons, hfirst, hg']
      rfl
    rw [hgl]
    simp only [ht, hc]

/-- A record whose slot titles/composers contain the `"|||"` separator. -/
def rBars : WeeklyRecord := { emptyRecord with
  musicSat5pm := some ⟨[("t", "x|||y")]⟩,
  musicSun9am := some ⟨[("t", "x"), ("c", "y|||")]⟩ }

/-- C4 counterexample: two *distinct* surviving (title, composer) pairs —
`("x|||y", "")` and `("x", "y|||")` — collide on the string key
`"x|||y|||"`, so `formatMusicSlot` merges them into a single unqualified
entry instead of returning one time-qualified entry per distinct pair as
the claim states. -/
theorem C4_counterexample_key_collision :
    (slotEntries rBars "t" "c").map (fun e => (e.title, e.composer)) =
      [("x|||y", ""), ("x", "y|||")] ∧
    (("x|||y", "") : String × String) ≠ ("x", "y|||") ∧
    formatMusicSlot rBars "t" "c" = [⟨"x|||y", "", ""⟩] := by
  refine ⟨by decide, by decide, by decide⟩

/-- The validator-test music blocks (same piece at two services, another at
the third). -/
def blkHymnA : MusicBlock := ⟨[("offertoryAnthem", "Hymn A"), ("offertoryAnthemComposer", "Comp A")]⟩

/-- Second distinct selection for the witness record. -/
def blkHymnB : MusicBlock := ⟨[("offertoryAnthem", "Hymn B"), ("offertoryAnthemComposer", "Comp B")]⟩

/-- Witness record: Hymn A at the first two services, Hymn B at the third. -/
def rHymns : WeeklyRecord := { emptyRecord with
  musicSat5pm := some blkHymnA, musicSun9am := some blkHymnA, musicSun11am := some blkHymnB }

/-- Witness for C4's amended statement at the concrete two-group record. -/
theorem C4_formatMusicSlot_grouping_witness :
    (∀ e ∈ slotEntries rHymns "offertoryAnthem" "offertoryAnthemComposer",
      '|' ∉ e.title.data ∧ '|' ∉ e.composer.data) ∧
    formatMusicSlot rHymns "offertoryAnthem" "offertoryAnthemComposer" =
      consolidateByPairSpec rHymns "offertoryAnthem" "offertoryAnthemComposer" :=
  ⟨by decide,
    (C4_formatMusicSlot_grouping rHymns "offertoryAnthem" "offertoryAnthemComposer"
      (by decide)).1⟩

end WorshipAid
